import Mathlib

/-!
Shallow embedding of `src/api/client.py` (Polly-API client).

The module exposes four operations (`register_user`, `login_user`,
`create_poll`, `get_polls`), each of which builds one HTTP request, hands it
to the `requests` library, and maps the response (or a raised exception) to a
return value.  We embed the client as programs in a small free-monad-like
type `Client` whose single effect is issuing an HTTP request to an abstract
transport `send : HttpRequest → HttpOutcome`; running a program against a
transport yields the Python function's return value, and the trace of a run
records every outbound request.

Semantics of the `requests` library used by the source, embedded faithfully:
  * `Response.raise_for_status` raises `HTTPError` exactly when the status
    code is in `[400, 600)`;
  * `Response.json()` raises a JSON decode error (a subclass of
    `RequestException`) when the body is not valid JSON — modelled by the
    response carrying `Option Json`;
  * a transport-level failure raises `RequestException`;
  * Python `dict.get(key)` returns the value or `None`; calling `.get` on a
    decoded JSON value that is not an object raises `AttributeError`, which
    is *not* a `RequestException` and escapes the `except` clauses.
-/

/-- JSON values, as produced by `Response.json()`. -/
inductive Json where
  | null : Json
  | bool (b : Bool) : Json
  | num (n : Int) : Json
  | str (s : String) : Json
  | arr (elems : List Json) : Json
  | obj (fields : List (String × Json)) : Json


/-- Request body: absent (GET), a JSON payload (`requests.post(..., json=...)`),
or URL-encoded form fields (`requests.post(..., data=...)`). -/
inductive ReqBody where
  | empty : ReqBody
  | jsonBody (j : Json) : ReqBody
  | formBody (fields : List (String × String)) : ReqBody


/-- An outbound HTTP request.  `headers` are the headers the client supplies
explicitly (the source passes `headers=` only in `create_poll`). -/
structure HttpRequest where
  method : String
  url : String
  headers : List (String × String)
  body : ReqBody


/-- What the transport does with a request: either the request completes with
a status code, a body (`some j` when the text decodes as JSON `j`, `none`
when it is not valid JSON) and the raw text, or it fails at the transport
level before completion (`requests.exceptions.RequestException`). -/
inductive HttpOutcome where
  | response (status : Nat) (jsonBody : Option Json) (text : String) : HttpOutcome
  | transportError (msg : String) : HttpOutcome


/-- The Python exceptions relevant to the client.  `jsonDecodeError` and
`requestException` are both `requests.exceptions.RequestException`s;
`httpError` is its `HTTPError` subclass; `attributeError` is unrelated to
`requests` and is caught by none of the client's `except` clauses. -/
inductive PyExc where
  | httpError (status : Nat) (text : String) : PyExc
  | requestException (msg : String) : PyExc
  | jsonDecodeError : PyExc
  | attributeError : PyExc


/-- Client programs over the single effect of issuing an HTTP request. -/
inductive Client (α : Type) where
  | done (v : α) : Client α
  | request (req : HttpRequest) (k : HttpOutcome → Client α) : Client α

/-- Run a client program against a transport. -/
def Client.run {α : Type} (send : HttpRequest → HttpOutcome) : Client α → α
  | .done v => v
  | .request req k => (k (send req)).run send

/-- The requests a program issues when run against a transport. -/
def Client.trace {α : Type} (send : HttpRequest → HttpOutcome) : Client α → List HttpRequest
  | .done _ => []
  | .request req k => req :: (k (send req)).trace send

/-- `BASE_URL = "http://localhost:8000"` in `client.py`. -/
def BASE_URL : String := "http://localhost:8000"

/-- `Response.raise_for_status()`: raises `HTTPError` iff the status code is
a 4xx client error or 5xx server error. -/
def raise_for_status (status : Nat) (text : String) : Except PyExc Unit :=
  if 400 ≤ status ∧ status < 600 then Except.error (PyExc.httpError status text)
  else Except.ok ()

/-- `Response.json()`: the decoded body, or a JSON decode error. -/
def response_json (jsonBody : Option Json) : Except PyExc Json :=
  match jsonBody with
  | some j => Except.ok j
  | none => Except.error PyExc.jsonDecodeError

/-- Lookup in a decoded JSON object.  `json.loads` keeps the last occurrence
of a duplicated key, so we return the last binding. -/
def lookupField (fields : List (String × Json)) (key : String) : Option Json :=
  ((fields.filter (fun p => p.1 == key)).getLast?).map (fun p => p.2)

/-- Python `value.get(key)`: field lookup on a dict (absent key gives
`None`), `AttributeError` on any non-dict JSON value. -/
def dict_get (j : Json) (key : String) : Except PyExc (Option Json) :=
  match j with
  | Json.obj fields => Except.ok (lookupField fields key)
  | _ => Except.error PyExc.attributeError

/-- The two `except` clauses shared by all four operations: `HTTPError` and
`RequestException` (which includes JSON decode errors) are converted to the
return value `None`; any other exception propagates. -/
def py_catch (r : Except PyExc (Option Json)) : Except PyExc (Option Json) :=
  match r with
  | Except.ok v => Except.ok v
  | Except.error (PyExc.httpError _ _) => Except.ok none
  | Except.error (PyExc.requestException _) => Except.ok none
  | Except.error PyExc.jsonDecodeError => Except.ok none
  | Except.error PyExc.attributeError => Except.error PyExc.attributeError

/-- The `try` body shared verbatim by `register_user`, `create_poll` and
`get_polls`: `response.raise_for_status()` then `return response.json()`. -/
def json_or_raise (out : HttpOutcome) : Except PyExc Json :=
  match out with
  | HttpOutcome.transportError msg => Except.error (PyExc.requestException msg)
  | HttpOutcome.response status jsonBody text => do
      raise_for_status status text
      response_json jsonBody

/-- The request `register_user` builds: POST to `/register`, JSON body with
exactly the fields `username` and `password`, no explicit headers. -/
def register_user_request (username password : String) : HttpRequest :=
  { method := "POST"
    url := BASE_URL ++ "/register"
    headers := []
    body := ReqBody.jsonBody (Json.obj [("username", Json.str username),
                                        ("password", Json.str password)]) }

/-- `register_user(username, password)` from `client.py`. -/
def register_user (username password : String) : Client (Except PyExc (Option Json)) :=
  Client.request (register_user_request username password)
    (fun out => Client.done (py_catch ((json_or_raise out).map some)))

/-- The request `login_user` builds: POST to `/login`, credentials as
URL-encoded form fields (`requests.post(..., data=payload)`). -/
def login_user_request (username password : String) : HttpRequest :=
  { method := "POST"
    url := BASE_URL ++ "/login"
    headers := []
    body := ReqBody.formBody [("username", username), ("password", password)] }

/-- The `try` body of `login_user`: `raise_for_status` then
`response.json().get("access_token")`. -/
def login_try (out : HttpOutcome) : Except PyExc (Option Json) :=
  match out with
  | HttpOutcome.transportError msg => Except.error (PyExc.requestException msg)
  | HttpOutcome.response status jsonBody text => do
      raise_for_status status text
      let j ← response_json jsonBody
      dict_get j "access_token"

/-- `login_user(username, password)` from `client.py`. -/
def login_user (username password : String) : Client (Except PyExc (Option Json)) :=
  Client.request (login_user_request username password)
    (fun out => Client.done (py_catch (login_try out)))

/-- The request `create_poll` builds: POST to `/polls`, JSON body with
exactly the fields `question` and `options`, and an `Authorization` header
carrying the token as a bearer credential. -/
def create_poll_request (question : String) (options : List String) (token : String) :
    HttpRequest :=
  { method := "POST"
    url := BASE_URL ++ "/polls"
    headers := [("Authorization", "Bearer " ++ token)]
    body := ReqBody.jsonBody (Json.obj [("question", Json.str question),
                                        ("options", Json.arr (options.map Json.str))]) }

/-- `create_poll(question, options, token)` from `client.py`. -/
def create_poll (question : String) (options : List String) (token : String) :
    Client (Except PyExc (Option Json)) :=
  Client.request (create_poll_request question options token)
    (fun out => Client.done (py_catch ((json_or_raise out).map some)))

/-- The request `get_polls` builds: GET with the pagination parameters
interpolated into the address (`f"{BASE_URL}/polls?skip={skip}&limit={limit}"`),
no body, no explicit headers. -/
def get_polls_request (skip limit : Int) : HttpRequest :=
  { method := "GET"
    url := BASE_URL ++ "/polls?skip=" ++ toString skip ++ "&limit=" ++ toString limit
    headers := []
    body := ReqBody.empty }

/-- `get_polls(skip=0, limit=10)` from `client.py`. -/
def get_polls (skip : Int := 0) (limit : Int := 10) : Client (Except PyExc (Option Json)) :=
  Client.request (get_polls_request skip limit)
    (fun out => Client.done (py_catch ((json_or_raise out).map some)))

/-- An outcome the spec counts as a failure of the underlying request: a
transport-level failure, or a completed response with a 4xx/5xx status. -/
def IsFailureOutcome (out : HttpOutcome) : Prop :=
  (∃ msg, out = HttpOutcome.transportError msg) ∨
  (∃ status jsonBody text, out = HttpOutcome.response status jsonBody text ∧
      400 ≤ status ∧ status < 600)

/-! ### Helper lemmas -/

/-- Running any of the one-request programs built from `json_or_raise`
reduces to the handler applied to the transport's answer. -/
theorem register_user_run (send : HttpRequest → HttpOutcome) (u p : String) :
    Client.run send (register_user u p)
      = py_catch ((json_or_raise (send (register_user_request u p))).map some) := rfl

theorem login_user_run (send : HttpRequest → HttpOutcome) (u p : String) :
    Client.run send (login_user u p)
      = py_catch (login_try (send (login_user_request u p))) := rfl

theorem create_poll_run (send : HttpRequest → HttpOutcome) (q : String)
    (os : List String) (tk : String) :
    Client.run send (create_poll q os tk)
      = py_catch ((json_or_raise (send (create_poll_request q os tk))).map some) := rfl

theorem get_polls_run (send : HttpRequest → HttpOutcome) (sk lim : Int) :
    Client.run send (get_polls sk lim)
      = py_catch ((json_or_raise (send (get_polls_request sk lim))).map some) := rfl

/-- On a completed response whose status is not 4xx/5xx, the shared `try`
body returns the decoded JSON body. -/
theorem json_or_raise_success (status : Nat) (j : Json) (text : String)
    (h : ¬ (400 ≤ status ∧ status < 600)) :
    json_or_raise (HttpOutcome.response status (some j) text) = Except.ok j := by
  simp only [json_or_raise, raise_for_status, if_neg h]
  rfl

/-- On a completed response whose status is not 4xx/5xx, `login_user`'s `try`
body performs `response.json().get("access_token")`. -/
theorem login_try_success (status : Nat) (fields : List (String × Json)) (text : String)
    (h : ¬ (400 ≤ status ∧ status < 600)) :
    login_try (HttpOutcome.response status (some (Json.obj fields)) text)
      = Except.ok (lookupField fields "access_token") := by
  simp only [login_try, raise_for_status, if_neg h]
  rfl

/-- A failed request (transport failure or 4xx/5xx status) is absorbed by the
`except` clauses of the `json_or_raise`-shaped operations, giving `None`. -/
theorem handled_failure_json (out : HttpOutcome) (h : IsFailureOutcome out) :
    py_catch ((json_or_raise out).map some) = Except.ok none := by
  rcases h with ⟨msg, rfl⟩ | ⟨status, jsonBody, text, rfl, h4, h6⟩
  · rfl
  · simp only [json_or_raise, raise_for_status, if_pos (And.intro h4 h6)]
    rfl

/-- A failed request is absorbed by `login_user`'s `except` clauses. -/
theorem handled_failure_login (out : HttpOutcome) (h : IsFailureOutcome out) :
    py_catch (login_try out) = Except.ok none := by
  rcases h with ⟨msg, rfl⟩ | ⟨status, jsonBody, text, rfl, h4, h6⟩
  · rfl
  · simp only [login_try, raise_for_status, if_pos (And.intro h4 h6)]
    rfl

/-! ### Claims -/

/-- C1, counterexample: the claim says every completed response with a
non-2xx status yields `None`.  But `raise_for_status` raises only for
4xx/5xx: a completed `300` response with a JSON body makes `register_user`
return the decoded body, not `None`. -/
theorem C1_claim_counterexample :
    Client.run (fun _ => HttpOutcome.response 300 (some (Json.obj [])) "")
        (register_user "u" "p") = Except.ok (some (Json.obj [])) ∧
    (Except.ok (some (Json.obj [])) : Except PyExc (Option Json)) ≠ Except.ok none ∧
    ¬ (200 ≤ 300 ∧ 300 < 300) :=
  ⟨rfl, fun h => Option.noConfusion (Except.ok.inj h), by omega⟩

/-- C1 (amended): for every operation, whenever the underlying request fails
— at the transport level, or completed with a 4xx/5xx status — the operation
returns `None` without propagating an exception, and both failure kinds yield
the same return value. -/
theorem C1_failures_yield_none (send : HttpRequest → HttpOutcome)
    (hfail : ∀ req, IsFailureOutcome (send req)) :
    (∀ u p, Client.run send (register_user u p) = Except.ok none) ∧
    (∀ u p, Client.run send (login_user u p) = Except.ok none) ∧
    (∀ q os tk, Client.run send (create_poll q os tk) = Except.ok none) ∧
    (∀ sk lim, Client.run send (get_polls sk lim) = Except.ok none) :=
  ⟨fun u p => (register_user_run send u p).trans (handled_failure_json _ (hfail _)),
   fun u p => (login_user_run send u p).trans (handled_failure_login _ (hfail _)),
   fun q os tk => (create_poll_run send q os tk).trans (handled_failure_json _ (hfail _)),
   fun sk lim => (get_polls_run send sk lim).trans (handled_failure_json _ (hfail _))⟩

/-- C1, witness: a transport failure for `register_user` and a completed 404
for `get_polls` both return `None`. -/
theorem C1_failures_yield_none_witness :
    Client.run (fun _ => HttpOutcome.transportError "connection refused")
        (register_user "alice" "pw") = Except.ok none ∧
    Client.run (fun _ => HttpOutcome.response 404 none "Not Found")
        (get_polls 0 5) = Except.ok none :=
  ⟨(C1_failures_yield_none _ (fun _ => Or.inl ⟨"connection refused", rfl⟩)).1 "alice" "pw",
   (C1_failures_yield_none _
      (fun _ => Or.inr ⟨404, none, "Not Found", rfl, by omega, by omega⟩)).2.2.2 0 5⟩

/-- C2: `login_user` POSTs the credentials to `/login` as URL-encoded form
fields (not a JSON body), and on a successful (2xx) response returns the
value of the `access_token` field of the JSON response body. -/
theorem C2_login_form_fields_and_token (username password : String) :
    (login_user_request username password).method = "POST" ∧
    (login_user_request username password).url = BASE_URL ++ "/login" ∧
    (login_user_request username password).body
      = ReqBody.formBody [("username", username), ("password", password)] ∧
    (∀ j, (login_user_request username password).body ≠ ReqBody.jsonBody j) ∧
    ∀ (send : HttpRequest → HttpOutcome) status fields text v,
      send (login_user_request username password)
        = HttpOutcome.response status (some (Json.obj fields)) text →
      200 ≤ status → status < 300 →
      lookupField fields "access_token" = some v →
      Client.run send (login_user username password) = Except.ok (some v) := by
  refine ⟨rfl, rfl, rfl, fun j h => ReqBody.noConfusion h,
          fun send status fields text v hsend h2 h3 hget => ?_⟩
  rw [login_user_run, hsend, login_try_success status fields text (by omega), hget]
  rfl

/-- C2, witness. -/
theorem C2_login_form_fields_and_token_witness :
    Client.run (fun _ => HttpOutcome.response 200
        (some (Json.obj [("access_token", Json.str "tok123")])) "")
      (login_user "alice" "pw") = Except.ok (some (Json.str "tok123")) :=
  (C2_login_form_fields_and_token "alice" "pw").2.2.2.2
    _ 200 [("access_token", Json.str "tok123")] "" (Json.str "tok123")
    rfl (by omega) (by omega) rfl

/-- C3, counterexample: the claim says a successful `get_polls(0, 5)` call
returns at most 5 records, but the client does not truncate: a successful
response carrying 6 records is returned with all 6. -/
theorem C3_claim_counterexample :
    Client.run (fun _ => HttpOutcome.response 200
        (some (Json.arr [Json.null, Json.null, Json.null, Json.null, Json.null, Json.null])) "")
        (get_polls 0 5)
      = Except.ok (some (Json.arr
          [Json.null, Json.null, Json.null, Json.null, Json.null, Json.null])) ∧
    5 < List.length [Json.null, Json.null, Json.null, Json.null, Json.null, Json.null] :=
  ⟨rfl, by simp⟩

/-- C3 (amended): a successful `get_polls(0, 5)` call returns the server's
JSON-decoded response unchanged, so it contains at most 5 records exactly
when the server's response does; the client itself enforces no limit. -/
theorem C3_get_polls_passthrough (send : HttpRequest → HttpOutcome)
    (status : Nat) (xs : List Json) (text : String)
    (hsend : send (get_polls_request 0 5)
      = HttpOutcome.response status (some (Json.arr xs)) text)
    (h2 : 200 ≤ status) (h3 : status < 300) (hlen : xs.length ≤ 5) :
    Client.run send (get_polls 0 5) = Except.ok (some (Json.arr xs)) ∧ xs.length ≤ 5 := by
  rw [get_polls_run, hsend, json_or_raise_success status (Json.arr xs) text (by omega)]
  exact ⟨rfl, hlen⟩

/-- C3, witness. -/
theorem C3_get_polls_passthrough_witness :
    Client.run (fun _ => HttpOutcome.response 200
        (some (Json.arr [Json.null, Json.null])) "")
      (get_polls 0 5) = Except.ok (some (Json.arr [Json.null, Json.null])) ∧
    List.length [Json.null, Json.null] ≤ 5 :=
  C3_get_polls_passthrough _ 200 [Json.null, Json.null] "" rfl (by omega) (by omega) (by simp)

/-- C4: `register_user` POSTs to `/register` a JSON body with exactly the
fields `username` and `password`, no authentication header, and on a
successful (2xx) response returns the JSON-decoded user record. -/
theorem C4_register_request_shape (u p : String) :
    (register_user_request u p).method = "POST" ∧
    (register_user_request u p).url = BASE_URL ++ "/register" ∧
    (register_user_request u p).body = ReqBody.jsonBody
      (Json.obj [("username", Json.str u), ("password", Json.str p)]) ∧
    (register_user_request u p).headers = [] ∧
    ∀ (send : HttpRequest → HttpOutcome) status j text,
      send (register_user_request u p) = HttpOutcome.response status (some j) text →
      200 ≤ status → status < 300 →
      Client.run send (register_user u p) = Except.ok (some j) := by
  refine ⟨rfl, rfl, rfl, rfl, fun send status j text hsend h2 h3 => ?_⟩
  rw [register_user_run, hsend, json_or_raise_success status j text (by omega)]
  rfl

/-- C4, witness. -/
theorem C4_register_request_shape_witness :
    Client.run (fun _ => HttpOutcome.response 201
        (some (Json.obj [("id", Json.num 1), ("username", Json.str "alice")])) "")
      (register_user "alice" "pw")
      = Except.ok (some (Json.obj [("id", Json.num 1), ("username", Json.str "alice")])) :=
  (C4_register_request_shape "alice" "pw").2.2.2.2
    _ 201 (Json.obj [("id", Json.num 1), ("username", Json.str "alice")]) ""
    rfl (by omega) (by omega)

/-- C5: `create_poll` POSTs to `/polls` a JSON body with exactly the fields
`question` and `options` and an `Authorization` header carrying the token as
a bearer credential, and on a successful (2xx) response returns the
JSON-decoded poll record. -/
theorem C5_create_poll_request_shape (q : String) (os : List String) (tk : String) :
    (create_poll_request q os tk).method = "POST" ∧
    (create_poll_request q os tk).url = BASE_URL ++ "/polls" ∧
    (create_poll_request q os tk).body = ReqBody.jsonBody
      (Json.obj [("question", Json.str q), ("options", Json.arr (os.map Json.str))]) ∧
    (create_poll_request q os tk).headers = [("Authorization", "Bearer " ++ tk)] ∧
    ∀ (send : HttpRequest → HttpOutcome) status j text,
      send (create_poll_request q os tk) = HttpOutcome.response status (some j) text →
      200 ≤ status → status < 300 →
      Client.run send (create_poll q os tk) = Except.ok (some j) := by
  refine ⟨rfl, rfl, rfl, rfl, fun send status j text hsend h2 h3 => ?_⟩
  rw [create_poll_run, hsend, json_or_raise_success status j text (by omega)]
  rfl

/-- C5, witness. -/
theorem C5_create_poll_request_shape_witness :
    Client.run (fun _ => HttpOutcome.response 201 (some (Json.obj [("id", Json.num 7)])) "")
      (create_poll "Best color?" ["Red", "Blue"] "tok")
      = Except.ok (some (Json.obj [("id", Json.num 7)])) :=
  (C5_create_poll_request_shape "Best color?" ["Red", "Blue"] "tok").2.2.2.2
    _ 201 (Json.obj [("id", Json.num 7)]) "" rfl (by omega) (by omega)

/-- C6: `get_polls` issues a GET with no body and no authentication header,
the pagination parameters embedded in the address as
`/polls?skip=<skip>&limit=<limit>`, and on a successful (2xx) response
returns the JSON-decoded response body. -/
theorem C6_get_polls_request_shape (skip lim : Int) :
    (get_polls_request skip lim).method = "GET" ∧
    (get_polls_request skip lim).body = ReqBody.empty ∧
    (get_polls_request skip lim).headers = [] ∧
    (get_polls_request skip lim).url
      = BASE_URL ++ "/polls?skip=" ++ toString skip ++ "&limit=" ++ toString lim ∧
    ∀ (send : HttpRequest → HttpOutcome) status j text,
      send (get_polls_request skip lim) = HttpOutcome.response status (some j) text →
      200 ≤ status → status < 300 →
      Client.run send (get_polls skip lim) = Except.ok (some j) := by
  refine ⟨rfl, rfl, rfl, rfl, fun send status j text hsend h2 h3 => ?_⟩
  rw [get_polls_run, hsend, json_or_raise_success status j text (by omega)]
  rfl

/-- C6, witness: with `skip = 2`, `limit = 7` the address is
`http://localhost:8000/polls?skip=2&limit=7` and a 200 array response is
returned decoded. -/
theorem C6_get_polls_request_shape_witness :
    (get_polls_request 2 7).url = "http://localhost:8000/polls?skip=2&limit=7" ∧
    Client.run (fun _ => HttpOutcome.response 200 (some (Json.arr [])) "")
      (get_polls 2 7) = Except.ok (some (Json.arr [])) :=
  ⟨((C6_get_polls_request_shape 2 7).2.2.2.1).trans rfl,
   (C6_get_polls_request_shape 2 7).2.2.2.2 _ 200 (Json.arr []) "" rfl (by omega) (by omega)⟩

/-- C7: every invocation of each of the four operations issues exactly one
outbound HTTP request — the trace of any run is the one-element list holding
that operation's request, for every transport (so no retry on failure). -/
theorem C7_single_request (send : HttpRequest → HttpOutcome) :
    (∀ u p, Client.trace send (register_user u p) = [register_user_request u p]) ∧
    (∀ u p, Client.trace send (login_user u p) = [login_user_request u p]) ∧
    (∀ q os tk, Client.trace send (create_poll q os tk) = [create_poll_request q os tk]) ∧
    (∀ sk lim, Client.trace send (get_polls sk lim) = [get_polls_request sk lim]) :=
  ⟨fun _ _ => rfl, fun _ _ => rfl, fun _ _ _ => rfl, fun _ _ => rfl⟩

/-- C8: each operation is stateless: its result depends only on its
arguments and the transport's answer to its own single request, so any two
transports that agree on that request (however they differ elsewhere, e.g.
because other calls ran before) give the same result. -/
theorem C8_stateless_calls (send sendOther : HttpRequest → HttpOutcome) :
    (∀ u p, send (register_user_request u p) = sendOther (register_user_request u p) →
      Client.run send (register_user u p) = Client.run sendOther (register_user u p)) ∧
    (∀ u p, send (login_user_request u p) = sendOther (login_user_request u p) →
      Client.run send (login_user u p) = Client.run sendOther (login_user u p)) ∧
    (∀ q os tk, send (create_poll_request q os tk) = sendOther (create_poll_request q os tk) →
      Client.run send (create_poll q os tk) = Client.run sendOther (create_poll q os tk)) ∧
    (∀ sk lim, send (get_polls_request sk lim) = sendOther (get_polls_request sk lim) →
      Client.run send (get_polls sk lim) = Client.run sendOther (get_polls sk lim)) := by
  refine ⟨fun u p h => ?_, fun u p h => ?_, fun q os tk h => ?_, fun sk lim h => ?_⟩
  · rw [register_user_run, register_user_run, h]
  · rw [login_user_run, login_user_run, h]
  · rw [create_poll_run, create_poll_run, h]
  · rw [get_polls_run, get_polls_run, h]

/-- C8, witness: two transports that differ on GET requests but agree on the
register request give `register_user` the same result. -/
theorem C8_stateless_calls_witness :
    Client.run (fun _ => HttpOutcome.response 201 (some Json.null) "")
        (register_user "a" "b")
      = Client.run (fun r => if r.method == "GET" then HttpOutcome.transportError "x"
                             else HttpOutcome.response 201 (some Json.null) "")
        (register_user "a" "b") :=
  (C8_stateless_calls _ _).1 "a" "b" rfl

/-- C9, counterexample: the claim quantifies over every 2xx response whose
JSON body lacks an `access_token` field; when that body is not an object
(here an empty array), `.get` raises `AttributeError`, which no `except`
clause catches — `login_user` propagates it instead of returning `None`. -/
theorem C9_claim_counterexample :
    Client.run (fun _ => HttpOutcome.response 200 (some (Json.arr [])) "")
        (login_user "u" "p") = Except.error PyExc.attributeError ∧
    (Except.error PyExc.attributeError : Except PyExc (Option Json)) ≠ Except.ok none :=
  ⟨rfl, fun h => Except.noConfusion h⟩

/-- C9 (amended): for every 2xx login response whose JSON body is an object
without an `access_token` field, `login_user` returns `None` — the same
value every failed request yields — so such a response is indistinguishable
to the caller from a failed login. -/
theorem C9_missing_token_gives_none (send : HttpRequest → HttpOutcome)
    (u p : String) (status : Nat) (fields : List (String × Json)) (text : String)
    (hsend : send (login_user_request u p)
      = HttpOutcome.response status (some (Json.obj fields)) text)
    (h2 : 200 ≤ status) (h3 : status < 300)
    (hmiss : lookupField fields "access_token" = none) :
    Client.run send (login_user u p) = Except.ok none ∧
    ∀ sendFail : HttpRequest → HttpOutcome, (∀ r, IsFailureOutcome (sendFail r)) →
      Client.run sendFail (login_user u p) = Except.ok none := by
  constructor
  · rw [login_user_run, hsend, login_try_success status fields text (by omega), hmiss]
    rfl
  · exact fun sendFail hf =>
      (login_user_run sendFail u p).trans (handled_failure_login _ (hf _))

/-- C9, witness: a 200 response whose object body has no `access_token`
yields the same `None` as a transport failure. -/
theorem C9_missing_token_gives_none_witness :
    Client.run (fun _ => HttpOutcome.response 200
        (some (Json.obj [("token_type", Json.str "bearer")])) "")
      (login_user "alice" "pw") = Except.ok none ∧
    Client.run (fun _ => HttpOutcome.transportError "timeout")
      (login_user "alice" "pw") = Except.ok none :=
  ⟨(C9_missing_token_gives_none
      (fun _ => HttpOutcome.response 200 (some (Json.obj [("token_type", Json.str "bearer")])) "")
      "alice" "pw" 200 [("token_type", Json.str "bearer")] ""
      rfl (by omega) (by omega) rfl).1,
   (C9_missing_token_gives_none
      (fun _ => HttpOutcome.response 200 (some (Json.obj [("token_type", Json.str "bearer")])) "")
      "alice" "pw" 200 [("token_type", Json.str "bearer")] ""
      rfl (by omega) (by omega) rfl).2
     _ (fun _ => Or.inl ⟨"timeout", rfl⟩)⟩

/-- C10: calling `get_polls` with both arguments omitted issues the request
with the default pagination parameters `skip=0` and `limit=10`, i.e. the
address `http://localhost:8000/polls?skip=0&limit=10`. -/
theorem C10_get_polls_defaults (send : HttpRequest → HttpOutcome) :
    Client.trace send get_polls = [get_polls_request 0 10] ∧
    (get_polls_request 0 10).url = "http://localhost:8000/polls?skip=0&limit=10" :=
  ⟨rfl, rfl⟩
